import Mathlib

/-!
Verification development for the ohlalatoursbogota Flask application
(src/app.py).  The definitions below are a shallow embedding of the
pricing table, the quote endpoint, the PayPal gateway wrappers and the
reservation endpoint.  Monetary arithmetic follows Python Decimal: an
exact value is an integer mantissa with a decimal scale, and quantize
rounds half-up (ties away from zero) to two fractional digits.  Network
interaction is modelled by a gateway oracle together with an explicit
trace of the HTTP requests each operation issues; Python exceptions are
modelled with Except.
-/

deriving instance DecidableEq for Except

namespace Ohlala

/-! ## Python value and string primitives -/

/-- A Python value appearing as a form or JSON field: an integer, a
string (the builtin int applies string parsing to it), or None (the
builtin int raises on it). -/
inductive PyVal
  | vint (n : ℤ)
  | vstr (s : String)
  | vnone
deriving DecidableEq

/-- The whitespace characters str.strip removes. -/
def isSpaceChar (c : Char) : Bool :=
  c == ' ' || c == '\t' || c == '\n' || c == '\r' || c == '\x0b' || c == '\x0c'

/-- Python str.strip(): surrounding whitespace removed. -/
def pyStrip (s : String) : String :=
  String.mk (((s.data.dropWhile isSpaceChar).reverse.dropWhile isSpaceChar).reverse)

/-- Python str.lower() on the ASCII range. -/
def pyLower (s : String) : String :=
  String.mk (s.data.map Char.toLower)

/-- Digits of an ASCII numeral folded into a natural number. -/
def digitsVal (l : List Char) : ℕ :=
  l.foldl (fun acc c => acc * 10 + (c.toNat - 48)) 0

/-- Model of the Python builtin int applied to a string: optional
surrounding whitespace, an optional sign, then decimal digits; any other
shape raises ValueError, modelled as none. -/
def pyIntOfString (s : String) : Option ℤ :=
  match (pyStrip s).data with
  | [] => none
  | c :: rest =>
    if c = '-' then
      if !rest.isEmpty && rest.all Char.isDigit then
        some (-(digitsVal rest : ℤ))
      else none
    else if c = '+' then
      if !rest.isEmpty && rest.all Char.isDigit then
        some ((digitsVal rest : ℤ))
      else none
    else if (c :: rest).all Char.isDigit then
      some ((digitsVal (c :: rest) : ℤ))
    else none

/-- Outcome of int(v) on a modelled Python value (none models a raised
exception, which every caller in app.py catches). -/
def pyToInt : PyVal → Option ℤ
  | .vint n => some n
  | .vstr s => pyIntOfString s
  | .vnone => none

/-- Python truthiness of the modelled values. -/
def pyTruthy : PyVal → Bool
  | .vint n => n != 0
  | .vstr s => s != ""
  | .vnone => false

/-- Python slice s[:n], taking the first n characters. -/
def pySlice (s : String) (n : ℕ) : String := String.mk (s.data.take n)

/-- Python slug normalization (slug or "").strip().lower(). -/
def normSlug (s : String) : String := pyLower (pyStrip s)

/-! ## Decimal arithmetic -/

/-- An exact Python Decimal value: mantissa num over 10 to the scale. -/
structure Dec where
  num : ℤ
  scale : ℕ
deriving DecidableEq

/-- Exact Decimal multiplication. -/
def Dec.mul (a b : Dec) : Dec := ⟨a.num * b.num, a.scale + b.scale⟩

/-- Decimal of an integer. -/
def Dec.ofInt (n : ℤ) : Dec := ⟨n, 0⟩

/-- Rounding of num over den (den positive) to the nearest integer with
ties away from zero, the ROUND_HALF_UP mode of the decimal module. -/
def roundHalfUpDiv (num den : ℤ) : ℤ :=
  if 0 ≤ num then Int.fdiv (2 * num + den) (2 * den)
  else -Int.fdiv (2 * (-num) + den) (2 * den)

/-- Decimal quantize to two fractional digits with ROUND_HALF_UP, as in
_money2 and quote_tour_usd. -/
def Dec.quantize2 (a : Dec) : Dec :=
  if a.scale ≤ 2 then ⟨a.num * 10 ^ (2 - a.scale), 2⟩
  else ⟨roundHalfUpDiv a.num (10 ^ (a.scale - 2)), 2⟩

/-! ## Pricing table and quote endpoint -/

/-- One tour entry of PRICES_USD: the tiered per-person rules
(min_people, max_people, unit_price in whole USD) and the group cap. -/
structure TourConf where
  rules : List (ℕ × ℕ × ℕ)
  max_group : ℕ
deriving DecidableEq

/-- The PRICES_USD table of app.py (lines 647-687). -/
def PRICES_USD : List (String × TourConf) :=
  [ ("monserrate", ⟨[(1, 1, 65), (2, 6, 55)], 6⟩),
    ("zipaquira", ⟨[(1, 1, 120), (2, 2, 100), (3, 6, 90)], 6⟩),
    ("finca-cafe", ⟨[(1, 1, 150), (2, 2, 105), (3, 6, 95)], 6⟩),
    ("chorrera", ⟨[(1, 1, 125), (2, 3, 115), (4, 6, 100)], 6⟩),
    ("candelaria", ⟨[(1, 1, 40), (2, 3, 35), (4, 6, 33)], 6⟩) ]

/-- The first pricing rule whose inclusive range contains n: the
for-loop shared by quote_tour_usd and compute_price. -/
def findRule (n : ℤ) : List (ℕ × ℕ × ℕ) → Option ℕ
  | [] => none
  | (mn, mx, price) :: rest =>
      if (mn : ℤ) ≤ n ∧ n ≤ (mx : ℤ) then some price else findRule n rest

/-- The party-size coercion of quote_tour_usd (lines 698-702):
int(people) with a raised exception defaulting to 1, then anything below
1 raised to 1. -/
def coercePeople (people : PyVal) : ℤ :=
  let n0 := (pyToInt people).getD 1
  if n0 < 1 then 1 else n0

/-- Result dictionary of quote_tour_usd: the ok shape carries per_person,
total, currency and people; the error shape carries the reason string
and, for group_too_large, the max field. -/
inductive QuoteResult
  | ok (per_person total : Dec) (currency : String) (people : ℤ)
  | err (reason : String) (mx : Option ℕ)
deriving DecidableEq

/-- Body of quote_tour_usd once the tour configuration is found: the cap
check, the tier search and the quantized amounts. -/
def quoteWithConf (conf : TourConf) (people : PyVal) : QuoteResult :=
  if conf.max_group ≠ 0 ∧ (conf.max_group : ℤ) < coercePeople people then
    .err "group_too_large" (some conf.max_group)
  else
    match findRule (coercePeople people) conf.rules with
    | none => .err "no_rule" none
    | some price =>
      .ok (Dec.quantize2 (Dec.ofInt price))
        (Dec.quantize2 ((Dec.ofInt price).mul (Dec.ofInt (coercePeople people))))
        "USD" (coercePeople people)

/-- quote_tour_usd of app.py (lines 689-718). -/
def quote_tour_usd (slug : String) (people : PyVal) : QuoteResult :=
  match PRICES_USD.lookup (normSlug slug) with
  | none => .err "unknown_tour" none
  | some conf => quoteWithConf conf people

/-- Response of the GET /api/quote route: 200 with the quote payload, or
400 with either the group-too-large message (carrying the interpolated
max) or the generic unavailable message. -/
inductive ApiQuoteResp
  | ok200 (per_person total : Dec) (currency : String) (people : ℤ)
  | groupTooLarge400 (mx : ℕ)
  | unavailable400
deriving DecidableEq

/-- The api_quote route of app.py (lines 720-738).  Query parameters are
optional strings; people goes through the Flask type=int conversion,
which yields none on a parse failure, followed by the Python expression
(... or 1). -/
def api_quote (tourParam peopleParam : Option String) : ApiQuoteResp :=
  let slug := normSlug (tourParam.getD "")
  let people : ℤ :=
    match peopleParam.bind pyIntOfString with
    | none => 1
    | some n => if n = 0 then 1 else n
  match quote_tour_usd slug (.vint people) with
  | .ok pp tot cur m => .ok200 pp tot cur m
  | .err reason mx =>
    if reason = "group_too_large" then .groupTooLarge400 (mx.getD 6)
    else .unavailable400

/-! ## Gateway model -/

/-- Python exceptions that can escape the network code: a raised
requests exception (timeout or connection error), raise_for_status on a
bad token response, a missing JSON key, or an unparseable body. -/
inductive PyExn
  | requestException
  | httpError
  | keyError
  | jsonError
deriving DecidableEq

/-- JSON body of an OAuth token response. -/
inductive TokenBody
  | invalid
  | obj (access_token : Option String)
deriving DecidableEq

structure TokenResp where
  status : ℕ
  body : TokenBody
deriving DecidableEq

/-- JSON body of a capture lookup: a parse failure or an object with an
optional status field. -/
inductive CapBody
  | invalid
  | obj (status : Option String)
deriving DecidableEq

structure CaptureResp where
  status : ℕ
  body : CapBody
deriving DecidableEq

/-- JSON body of a create-order response. -/
inductive OrderCreateBody
  | invalid
  | obj (id : Option String)
deriving DecidableEq

structure OrderCreateResp where
  status : ℕ
  body : OrderCreateBody
deriving DecidableEq

/-- JSON body of an order lookup: status and the payee merchant id of
the first purchase unit (none when the extraction raises). -/
inductive OrderBody
  | invalid
  | obj (status : Option String) (payee_merchant_id : Option String)
deriving DecidableEq

structure OrderResp where
  status : ℕ
  body : OrderBody
deriving DecidableEq

/-- Outcome of one HTTP request: the transport raised, or a response
came back. -/
inductive NetOutcome (α : Type)
  | exn
  | resp (r : α)
deriving DecidableEq

/-- The gateway oracle: the response PayPal gives to each request.  A
function of the request alone, which suffices because each operation in
app.py issues at most one request per endpoint. -/
structure Gateway where
  token : NetOutcome TokenResp
  getCapture : String → NetOutcome CaptureResp
  createOrder : NetOutcome OrderCreateResp
  getOrder : String → NetOutcome OrderResp

/-- Structured content of the order description f-string of
compute_price (the tour key, the clamped party size and the per-person
price fully determine it). -/
structure OrderDesc where
  key : String
  n : ℤ
  per_person : Dec
deriving DecidableEq

/-- Trace events: the gateway HTTP requests an operation issues, in
order. -/
inductive GwReq
  | tokenReq
  | createOrderReq (amount : Dec) (currency : String) (description : OrderDesc)
  | getOrderReq (order_id : String)
  | getCaptureReq (capture_id : String)
deriving DecidableEq

/-- Bool test for an order-creation request event. -/
def GwReq.isCreate : GwReq → Bool
  | .createOrderReq _ _ _ => true
  | _ => false

/-- Bool test for a capture-lookup request event. -/
def GwReq.isCaptureLookup : GwReq → Bool
  | .getCaptureReq _ => true
  | _ => false

/-- Bool test for an order-lookup request event. -/
def GwReq.isOrderLookup : GwReq → Bool
  | .getOrderReq _ => true
  | _ => false

/-- paypal_access_token of app.py (lines 1019-1029): posts the
client-credentials exchange, raise_for_status on a non-2xx answer, then
reads access_token from the JSON body. -/
def paypal_access_token (gw : Gateway) : Except PyExn String × List GwReq :=
  match gw.token with
  | .exn => (.error .requestException, [.tokenReq])
  | .resp r =>
    if 400 ≤ r.status then (.error .httpError, [.tokenReq])
    else
      match r.body with
      | .invalid => (.error .jsonError, [.tokenReq])
      | .obj none => (.error .keyError, [.tokenReq])
      | .obj (some t) => (.ok t, [.tokenReq])

/-- verify_paypal_capture of app.py (lines 1166-1178): an empty capture
id returns False at once; otherwise one token fetch and one capture GET,
with False on an HTTP error status and True iff the reported status is
COMPLETED.  Exceptions from the token fetch, from the transport or from
JSON parsing are not caught and propagate. -/
def verify_paypal_capture (gw : Gateway) (capture_id : String) :
    Except PyExn Bool × List GwReq :=
  if capture_id = "" then (.ok false, [])
  else
    match paypal_access_token gw with
    | (.error e, tr) => (.error e, tr)
    | (.ok _token, tr) =>
      match gw.getCapture capture_id with
      | .exn => (.error .requestException, tr ++ [.getCaptureReq capture_id])
      | .resp r =>
        if 400 ≤ r.status then (.ok false, tr ++ [.getCaptureReq capture_id])
        else
          match r.body with
          | .invalid => (.error .jsonError, tr ++ [.getCaptureReq capture_id])
          | .obj st =>
            (.ok (st == some "COMPLETED"), tr ++ [.getCaptureReq capture_id])

/-- Summary returned by the GET /paypal-order/<id> route. -/
structure OrderSummary where
  status : Option String
  payee_merchant_id : Option String
  httpStatus : ℕ
deriving DecidableEq

/-- The paypal_order route of app.py (lines 1088-1108): one token fetch
and one order GET, passing the gateway HTTP status through. -/
def paypal_order (gw : Gateway) (order_id : String) :
    Except PyExn OrderSummary × List GwReq :=
  match paypal_access_token gw with
  | (.error e, tr) => (.error e, tr)
  | (.ok _token, tr) =>
    match gw.getOrder order_id with
    | .exn => (.error .requestException, tr ++ [.getOrderReq order_id])
    | .resp r =>
      match r.body with
      | .invalid => (.error .jsonError, tr ++ [.getOrderReq order_id])
      | .obj st payee => (.ok ⟨st, payee, r.status⟩, tr ++ [.getOrderReq order_id])

/-! ## Order creation -/

/-- Environment configuration consumed by the PayPal block: settlement
currency and the COP conversion constant. -/
structure PayCfg where
  currency : String
  copPerUnit : Dec
deriving DecidableEq

/-- PRICES_USD_PAYPAL of app.py (lines 960-966): the same tiers as
PRICES_USD, as bare rule lists. -/
def PRICES_USD_PAYPAL : List (String × List (ℕ × ℕ × ℕ)) :=
  [ ("monserrate", [(1, 1, 65), (2, 6, 55)]),
    ("zipaquira", [(1, 1, 120), (2, 2, 100), (3, 6, 90)]),
    ("finca-cafe", [(1, 1, 150), (2, 2, 105), (3, 6, 95)]),
    ("chorrera", [(1, 1, 125), (2, 3, 115), (4, 6, 100)]),
    ("candelaria", [(1, 1, 40), (2, 3, 35), (4, 6, 33)]) ]

/-- The two ValueError messages compute_price can raise. -/
inductive PriceErr
  | tourNotPriced
  | noRule
deriving DecidableEq

/-- compute_price of app.py (lines 976-1017): tier lookup on the
normalized tour key, party size coerced with int(persons) defaulting to
1 and then clamped into 1..6 with max(1, min(n, 6)), currency conversion
by configuration, amount quantized to two decimals half-up. -/
def compute_price (cfg : PayCfg) (tour : String) (persons : PyVal) :
    Except PriceErr (Dec × OrderDesc) :=
  match PRICES_USD_PAYPAL.lookup (normSlug tour) with
  | none => .error .tourNotPriced
  | some rules =>
    let n := max 1 (min ((pyToInt persons).getD 1) 6)
    match findRule n rules with
    | none => .error .noRule
    | some price =>
      let total_usd := (Dec.ofInt price).mul (Dec.ofInt n)
      let total_unit :=
        if cfg.currency = "USD" then total_usd
        else if cfg.currency = "COP" then total_usd.mul cfg.copPerUnit
        else total_usd
      .ok (Dec.quantize2 total_unit, ⟨normSlug tour, n, Dec.ofInt price⟩)

/-- JSON body of the POST /create-paypal-order request. -/
structure OrderReq where
  tour : Option String
  persons : PyVal
deriving DecidableEq

/-- Response of the create_paypal_order route: 200 with the order id,
one of the 400 bodies, or an uncaught exception (Flask 500). -/
inductive CreateOrderResult
  | ok200 (id : String)
  | valueError400 (e : PriceErr)
  | gatewayError400
  | noId400
  | raised (e : PyExn)
deriving DecidableEq

/-- The create_paypal_order route of app.py (lines 1044-1086):
request.get_json(silent=True) or an empty dictionary, the tour and
persons fields defaulted through Python truthiness, compute_price before
any network call, then one token fetch and one order-creation POST. -/
def create_paypal_order (cfg : PayCfg) (gw : Gateway) (data : Option OrderReq) :
    CreateOrderResult × List GwReq :=
  let d := data.getD ⟨none, .vnone⟩
  let tour := pyStrip (d.tour.getD "")
  let persons := if pyTruthy d.persons then d.persons else .vint 1
  match compute_price cfg tour persons with
  | .error e => (.valueError400 e, [])
  | .ok (amount, description) =>
    match paypal_access_token gw with
    | (.error e, tr) => (.raised e, tr)
    | (.ok _token, tr) =>
      match gw.createOrder with
      | .exn =>
        (.raised .requestException, tr ++ [.createOrderReq amount cfg.currency description])
      | .resp r =>
        if 400 ≤ r.status then
          (.gatewayError400, tr ++ [.createOrderReq amount cfg.currency description])
        else
          match r.body with
          | .invalid =>
            (.raised .jsonError, tr ++ [.createOrderReq amount cfg.currency description])
          | .obj none =>
            (.noId400, tr ++ [.createOrderReq amount cfg.currency description])
          | .obj (some oid) =>
            (.ok200 oid, tr ++ [.createOrderReq amount cfg.currency description])

/-! ## Reservation endpoint -/

/-- A row of the reservations table, restricted to the columns the POST
handler sets. -/
structure ResRecord where
  fullname : String
  email : String
  phone : String
  country : String
  date_str : String
  persons : ℤ
  tour_slug : String
  message : String
  language : String
  paypal_capture_id : String
deriving DecidableEq

/-- The reservation form as submitted: a missing field reads as the
empty string, matching request.form.get(field) or the empty default. -/
structure ResForm where
  nom : String
  email : String
  phone : String
  country : String
  date : String
  persons : String
  tour : String
  message : String
  paypal_capture_id : String
  ui_lang : String
deriving DecidableEq

/-- Outcome of the POST branch of the reservation route.  The raised
case is an exception escaping verify_paypal_capture (Flask 500). -/
inductive ResResult
  | missingFields
  | paymentNotConfirmed
  | success
  | raised (e : PyExn)
deriving DecidableEq

structure ResOut where
  result : ResResult
  store : List ResRecord
  trace : List GwReq
deriving DecidableEq

/-- The PAX validation of the reservation route (lines 774-780):
request.form.get with the default string 1, int(...) with exceptions
giving 1, then clamping below 1 up to 1 and above 6 down to 6. -/
def clampPersons (raw : String) : ℤ :=
  match pyIntOfString (if raw = "" then "1" else raw) with
  | none => 1
  | some n => if n < 1 then 1 else if n > 6 then 6 else n

/-- The row the reservation route inserts (lines 792-806), with the
column-width truncations of the Python slices. -/
def mkReservation (form : ResForm) (lang : String) : ResRecord :=
  ⟨pySlice (pyStrip form.nom) 160, pySlice (pyStrip form.email) 160,
   pySlice (pyStrip form.phone) 40, pySlice (pyStrip form.country) 120,
   pySlice (pyStrip form.date) 80, clampPersons form.persons,
   pySlice (pyLower (pyStrip form.tour)) 80, pyStrip form.message,
   pySlice lang 8, pySlice (pyStrip form.paypal_capture_id) 80⟩

/-- The POST branch of the reservation route of app.py (lines 755-903).
The language inferred from request headers by _infer_lang_from_request
lies outside this model and is passed in as inferredLang.  Email
dispatch happens only after a successful commit and touches no gateway
endpoint, so the trace records gateway requests. -/
def reservation_post (gw : Gateway) (form : ResForm) (inferredLang : String)
    (store : List ResRecord) : ResOut :=
  let ui := pyLower form.ui_lang
  let lang := if ui = "fr" ∨ ui = "en" ∨ ui = "es" then ui else inferredLang
  if pyStrip form.nom = "" ∨ pyStrip form.email = "" ∨ pyStrip form.date = "" ∨
      pyLower (pyStrip form.tour) = "" then
    ⟨.missingFields, store, []⟩
  else
    match verify_paypal_capture gw (pyStrip form.paypal_capture_id) with
    | (.error e, tr) => ⟨.raised e, store, tr⟩
    | (.ok false, tr) => ⟨.paymentNotConfirmed, store, tr⟩
    | (.ok true, tr) => ⟨.success, store ++ [mkReservation form lang], tr⟩

/-! ## Helper lemmas -/

theorem one_le_coercePeople (p : PyVal) : 1 ≤ coercePeople p := by
  simp only [coercePeople]
  split <;> omega

theorem coercePeople_of_none {p : PyVal} (h : pyToInt p = none) :
    coercePeople p = 1 := by
  unfold coercePeople
  rw [h]
  simp

theorem coercePeople_of_lt {p : PyVal} {n : ℤ} (h : pyToInt p = some n)
    (hn : n < 1) : coercePeople p = 1 := by
  unfold coercePeople
  rw [h]
  simp [hn]

theorem quote_unknown {slug : String}
    (h : PRICES_USD.lookup (normSlug slug) = none) (people : PyVal) :
    quote_tour_usd slug people = .err "unknown_tour" none := by
  unfold quote_tour_usd
  rw [h]

theorem quoteWithConf_too_large (conf : TourConf) (n : ℤ)
    (h0 : conf.max_group ≠ 0) (hn : (conf.max_group : ℤ) < n) :
    quoteWithConf conf (.vint n) = .err "group_too_large" (some conf.max_group) := by
  have hc : coercePeople (.vint n) = n := by
    unfold coercePeople pyToInt
    simp only [Option.getD]
    have h1 : ¬ n < 1 := by omega
    simp [h1]
  unfold quoteWithConf
  rw [hc, if_pos ⟨h0, hn⟩]

theorem quote_ok_people {slug : String} {people : PyVal} {pp tot : Dec}
    {cur : String} {m : ℤ}
    (h : quote_tour_usd slug people = .ok pp tot cur m) :
    m = coercePeople people := by
  unfold quote_tour_usd quoteWithConf at h
  split at h
  · exact absurd h (by simp)
  · split at h
    · exact absurd h (by simp)
    · split at h
      · exact absurd h (by simp)
      · injection h with _ _ _ h4
        exact h4.symm

/-! ## Claim C5 -/

/-- C5: for every tour in the schedule and every party size within
1..max_group_size, quote succeeds with a unique tier whose range contains
the party size (countP of matching tiers is 1), the price is the tier
found by findRule, and total equals unit_price times party size rounded
half-up to 2 decimal places; in particular quote zipaquira 4 yields
unit_price 90.00 and total 360.00 (9000 and 36000 at scale 2). -/
theorem claim_c5_quote_within_range :
    (∀ p ∈ PRICES_USD, ∀ n : ℤ, 1 ≤ n → n ≤ (p.2.max_group : ℤ) →
      p.2.rules.countP (fun r => decide ((r.1 : ℤ) ≤ n ∧ n ≤ (r.2.1 : ℤ))) = 1 ∧
      ∃ price, findRule n p.2.rules = some price ∧
        quote_tour_usd p.1 (.vint n) =
          .ok (Dec.quantize2 (Dec.ofInt price))
            (Dec.quantize2 ((Dec.ofInt price).mul (Dec.ofInt n))) "USD" n) ∧
    quote_tour_usd "zipaquira" (.vint 4) = .ok ⟨9000, 2⟩ ⟨36000, 2⟩ "USD" 4 := by
  refine ⟨?_, by decide⟩
  intro p hp n h1 h2
  fin_cases hp <;>
    · have h2' : n ≤ (6 : ℤ) := by simpa using h2
      interval_cases n <;> exact ⟨by decide, _, rfl, by decide⟩

/-- Witness for C5 at the zipaquira, party of 4 scenario. -/
theorem claim_c5_quote_within_range_witness :
    (([(1, 1, 120), (2, 2, 100), (3, 6, 90)] : List (ℕ × ℕ × ℕ)).countP
        (fun r => decide ((r.1 : ℤ) ≤ (4 : ℤ) ∧ (4 : ℤ) ≤ (r.2.1 : ℤ))) = 1 ∧
     ∃ price, findRule 4 [(1, 1, 120), (2, 2, 100), (3, 6, 90)] = some price ∧
       quote_tour_usd "zipaquira" (.vint 4) =
         .ok (Dec.quantize2 (Dec.ofInt price))
           (Dec.quantize2 ((Dec.ofInt price).mul (Dec.ofInt 4))) "USD" 4) :=
  claim_c5_quote_within_range.1
    ("zipaquira", ⟨[(1, 1, 120), (2, 2, 100), (3, 6, 90)], 6⟩)
    (by decide) 4 (by decide) (by decide)

/-! ## Claim C6 -/

/-- C6: for every known tour and every party size strictly greater than
that tour's max_group_size, quote fails with group_too_large carrying
the tour's maximum; in particular quote monserrate 7 is rejected with
max 6. -/
theorem claim_c6_group_too_large :
    (∀ p ∈ PRICES_USD, ∀ n : ℤ, (p.2.max_group : ℤ) < n →
      quote_tour_usd p.1 (.vint n) = .err "group_too_large" (some p.2.max_group)) ∧
    quote_tour_usd "monserrate" (.vint 7) = .err "group_too_large" (some 6) := by
  refine ⟨?_, by decide⟩
  intro p hp n hn
  fin_cases hp <;> exact quoteWithConf_too_large _ n (by decide) hn

/-- Witness for C6 at the monserrate, party of 7 scenario. -/
theorem claim_c6_group_too_large_witness :
    quote_tour_usd "monserrate" (.vint 7) = .err "group_too_large" (some 6) :=
  claim_c6_group_too_large.1 ("monserrate", ⟨[(1, 1, 65), (2, 6, 55)], 6⟩)
    (by decide) 7 (by decide)

/-! ## Claim C8 -/

/-- C8: a tour id absent from the schedule fails with unknown_tour
whatever the party-size input is; an invalid or non-numeric party size
is coerced to 1 and an integer below 1 is raised to 1, so the priced
party size (the people field of a successful quote, both for
quote_tour_usd and for the api_quote route) is always an integer of at
least 1. -/
theorem claim_c8_input_coercion :
    (∀ slug : String, PRICES_USD.lookup (normSlug slug) = none →
      ∀ people : PyVal, quote_tour_usd slug people = .err "unknown_tour" none) ∧
    (∀ people : PyVal, 1 ≤ coercePeople people) ∧
    (∀ people : PyVal, pyToInt people = none → coercePeople people = 1) ∧
    (∀ (people : PyVal) (n : ℤ), pyToInt people = some n → n < 1 →
      coercePeople people = 1) ∧
    (∀ (slug : String) (people : PyVal) (pp tot : Dec) (cur : String) (m : ℤ),
      quote_tour_usd slug people = .ok pp tot cur m →
      m = coercePeople people ∧ 1 ≤ m) ∧
    (∀ (tp pq : Option String) (a b : Dec) (cur : String) (m : ℤ),
      api_quote tp pq = .ok200 a b cur m → 1 ≤ m) := by
  refine ⟨fun slug h people => quote_unknown h people,
          one_le_coercePeople,
          fun people h => coercePeople_of_none h,
          fun people n h hn => coercePeople_of_lt h hn,
          fun slug people pp tot cur m h =>
            ⟨quote_ok_people h, (quote_ok_people h) ▸ one_le_coercePeople people⟩,
          ?_⟩
  intro tp pq a b cur m h
  simp only [api_quote] at h
  split at h
  case _ pp tot cur2 m2 hq =>
    injection h with _ _ _ h4
    subst h4
    exact (quote_ok_people hq) ▸ one_le_coercePeople _
  case _ reason mx hq =>
    split at h <;> exact absurd h (by simp)

/-- Witness for C8: an unknown tour with a non-numeric party size. -/
theorem claim_c8_input_coercion_witness :
    quote_tour_usd "nowhere" (.vstr "abc") = .err "unknown_tour" none :=
  claim_c8_input_coercion.1 "nowhere" (by decide) (.vstr "abc")

/-! ## Reservation helper lemmas and concrete worlds -/

theorem pySlice_of_le (s : String) {n : ℕ} (h : s.length ≤ n) :
    pySlice s n = s := by
  unfold pySlice
  rw [List.take_of_length_le h]

theorem clampPersons_bounds (raw : String) :
    1 ≤ clampPersons raw ∧ clampPersons raw ≤ 6 := by
  simp only [clampPersons]
  split
  · omega
  · split
    · omega
    · split <;> omega

/-- A gateway whose capture lookups report COMPLETED. -/
def gwCompleted : Gateway :=
  ⟨.resp ⟨200, .obj (some "T")⟩, fun _ => .resp ⟨200, .obj (some "COMPLETED")⟩,
   .resp ⟨201, .obj (some "ORDER9")⟩, fun _ => .resp ⟨200, .obj (some "CREATED") (some "M")⟩⟩

/-- A gateway whose capture lookups report PENDING. -/
def gwPending : Gateway :=
  ⟨.resp ⟨200, .obj (some "T")⟩, fun _ => .resp ⟨200, .obj (some "PENDING")⟩,
   .resp ⟨201, .obj (some "ORDER9")⟩, fun _ => .resp ⟨200, .obj (some "CREATED") (some "M")⟩⟩

/-- A filled reservation form carrying capture id CAP123. -/
def formCap123 : ResForm :=
  ⟨"Jean Dupont", "jean@example.com", "+33", "France", "2026-01-01", "3",
   "zipaquira", "hello", "CAP123", "fr"⟩

/-- The same form carrying capture id CAP999. -/
def formCap999 : ResForm :=
  ⟨"Jean Dupont", "jean@example.com", "+33", "France", "2026-01-01", "3",
   "zipaquira", "hello", "CAP999", "fr"⟩

/-- The same form with an empty capture id. -/
def formEmptyCap : ResForm :=
  ⟨"Jean Dupont", "jean@example.com", "+33", "France", "2026-01-01", "3",
   "zipaquira", "hello", "", "fr"⟩

/-- A capture id of 81 characters, one more than the column width. -/
def longCapId : String := String.mk (List.replicate 81 'A')

/-- The same form carrying the 81-character capture id. -/
def formLongCap : ResForm :=
  ⟨"Jean Dupont", "jean@example.com", "+33", "France", "2026-01-01", "3",
   "zipaquira", "hello", longCapId, "fr"⟩

/-! ## Claim C1 -/

/-- C1: when the submitted capture id does not verify
(verify_paypal_capture returns false), the reservation store is
unchanged and the request fails; when the required fields are also
present — so that verification is what decides the submission — the
failure is precisely the payment-not-confirmed one, whatever the rest of
the client-submitted form claims. -/
theorem claim_c1_unverified_never_persisted
    (gw : Gateway) (form : ResForm) (lang : String) (store : List ResRecord)
    (hv : (verify_paypal_capture gw (pyStrip form.paypal_capture_id)).1 = .ok false) :
    (reservation_post gw form lang store).store = store ∧
    ((reservation_post gw form lang store).result = .missingFields ∨
      (reservation_post gw form lang store).result = .paymentNotConfirmed) ∧
    (pyStrip form.nom ≠ "" → pyStrip form.email ≠ "" → pyStrip form.date ≠ "" →
      pyLower (pyStrip form.tour) ≠ "" →
      (reservation_post gw form lang store).result = .paymentNotConfirmed) := by
  simp only [reservation_post]
  split
  case _ hcond =>
    refine ⟨rfl, .inl rfl, fun h1 h2 h3 h4 => ?_⟩
    rcases hcond with h | h | h | h
    · exact absurd h h1
    · exact absurd h h2
    · exact absurd h h3
    · exact absurd h h4
  case _ hcond =>
    rcases hV : verify_paypal_capture gw (pyStrip form.paypal_capture_id) with ⟨res, tr⟩
    have hres : res = Except.ok false := by rw [hV] at hv; exact hv
    subst hres
    exact ⟨rfl, .inr rfl, fun _ _ _ _ => rfl⟩

/-- Witness for C1: the CAP999 PENDING scenario; zero reservations
inserted and the payment-not-confirmed outcome. -/
theorem claim_c1_unverified_never_persisted_witness :
    (reservation_post gwPending formCap999 "fr" []).store = [] ∧
    (reservation_post gwPending formCap999 "fr" []).result = .paymentNotConfirmed :=
  ⟨(claim_c1_unverified_never_persisted gwPending formCap999 "fr" [] (by decide)).1,
   (claim_c1_unverified_never_persisted gwPending formCap999 "fr" [] (by decide)).2.2
     (by decide) (by decide) (by decide) (by decide)⟩

/-! ## Claim C2 -/

/-- Counterexample to C2 as stated: an 81-character capture id that
verifies COMPLETED is persisted truncated to 80 characters, so the
stored payment_capture_id differs from the verified capture id. -/
theorem claim_c2_counterexample :
    (verify_paypal_capture gwCompleted (pyStrip formLongCap.paypal_capture_id)).1 =
      .ok true ∧
    (reservation_post gwCompleted formLongCap "fr" []).result = .success ∧
    (reservation_post gwCompleted formLongCap "fr" []).store.length = 1 ∧
    ∀ r ∈ (reservation_post gwCompleted formLongCap "fr" []).store,
      r.paypal_capture_id ≠ pyStrip formLongCap.paypal_capture_id := by decide

/-- C2 amended: with valid required fields and a capture id that
verifies COMPLETED, exactly one reservation is appended; its
payment_capture_id is the first 80 characters of the verified capture
id, hence equals the verified capture id whenever that id has at most 80
characters (every real PayPal capture id does). -/
theorem claim_c2_amended_persist_exactly_one
    (gw : Gateway) (form : ResForm) (lang : String) (store : List ResRecord)
    (h1 : pyStrip form.nom ≠ "") (h2 : pyStrip form.email ≠ "")
    (h3 : pyStrip form.date ≠ "") (h4 : pyLower (pyStrip form.tour) ≠ "")
    (hv : (verify_paypal_capture gw (pyStrip form.paypal_capture_id)).1 = .ok true) :
    (reservation_post gw form lang store).result = .success ∧
    ∃ r, (reservation_post gw form lang store).store = store ++ [r] ∧
      r.paypal_capture_id = pySlice (pyStrip form.paypal_capture_id) 80 ∧
      ((pyStrip form.paypal_capture_id).length ≤ 80 →
        r.paypal_capture_id = pyStrip form.paypal_capture_id) := by
  simp only [reservation_post]
  split
  case _ hcond =>
    exfalso
    rcases hcond with h | h | h | h
    · exact absurd h h1
    · exact absurd h h2
    · exact absurd h h3
    · exact absurd h h4
  case _ hcond =>
    rcases hV : verify_paypal_capture gw (pyStrip form.paypal_capture_id) with ⟨res, tr⟩
    have hres : res = Except.ok true := by rw [hV] at hv; exact hv
    subst hres
    refine ⟨rfl, mkReservation form _, rfl, rfl, fun hlen => ?_⟩
    exact pySlice_of_le _ hlen

/-- Witness for C2 amended: the CAP123 COMPLETED scenario. -/
theorem claim_c2_amended_persist_exactly_one_witness :
    (reservation_post gwCompleted formCap123 "fr" []).result = .success ∧
    ∃ r, (reservation_post gwCompleted formCap123 "fr" []).store = [] ++ [r] ∧
      r.paypal_capture_id = pySlice (pyStrip formCap123.paypal_capture_id) 80 ∧
      ((pyStrip formCap123.paypal_capture_id).length ≤ 80 →
        r.paypal_capture_id = pyStrip formCap123.paypal_capture_id) :=
  claim_c2_amended_persist_exactly_one gwCompleted formCap123 "fr" []
    (by decide) (by decide) (by decide) (by decide) (by decide)

/-! ## Claim C9 -/

/-- C9: an empty capture id makes verify_paypal_capture return false
immediately with no gateway request, and a reservation form whose
paypal_capture_id strips to the empty string leaves the store unchanged,
issues no gateway request, and never reaches the success path (so no
notification dispatch either). -/
theorem claim_c9_empty_capture_no_network :
    (∀ gw : Gateway, verify_paypal_capture gw "" = (.ok false, [])) ∧
    (∀ (gw : Gateway) (form : ResForm) (lang : String) (store : List ResRecord),
      pyStrip form.paypal_capture_id = "" →
      (reservation_post gw form lang store).store = store ∧
      (reservation_post gw form lang store).trace = [] ∧
      (reservation_post gw form lang store).result ≠ .success) := by
  refine ⟨fun gw => rfl, ?_⟩
  intro gw form lang store hcap
  simp only [reservation_post]
  split
  · exact ⟨rfl, rfl, by simp⟩
  · rw [hcap, show verify_paypal_capture gw "" = (.ok false, []) from rfl]
    exact ⟨rfl, rfl, by simp⟩

/-- Witness for C9: a fully filled form whose capture id is empty. -/
theorem claim_c9_empty_capture_no_network_witness :
    (reservation_post gwCompleted formEmptyCap "fr" []).store = [] ∧
    (reservation_post gwCompleted formEmptyCap "fr" []).trace = [] ∧
    (reservation_post gwCompleted formEmptyCap "fr" []).result ≠ .success :=
  claim_c9_empty_capture_no_network.2 gwCompleted formEmptyCap "fr" [] (by decide)

/-! ## Claim C10 -/

/-- C10: every reservation the POST handler adds to the store has
persons equal to clampPersons of the submitted field and within 1..6;
clampPersons maps a non-numeric value to 1, raises integers below 1 to
1 and silently clamps integers above 6 down to 6. -/
theorem claim_c10_persons_clamped :
    (∀ (gw : Gateway) (form : ResForm) (lang : String) (store : List ResRecord),
      ∀ r ∈ (reservation_post gw form lang store).store,
        r ∈ store ∨
          (1 ≤ r.persons ∧ r.persons ≤ 6 ∧ r.persons = clampPersons form.persons)) ∧
    (∀ raw : String, 1 ≤ clampPersons raw ∧ clampPersons raw ≤ 6) ∧
    (∀ raw : String, pyIntOfString (if raw = "" then "1" else raw) = none →
      clampPersons raw = 1) ∧
    (∀ (raw : String) (n : ℤ),
      pyIntOfString (if raw = "" then "1" else raw) = some n → n < 1 →
      clampPersons raw = 1) ∧
    (∀ (raw : String) (n : ℤ),
      pyIntOfString (if raw = "" then "1" else raw) = some n → 6 < n →
      clampPersons raw = 6) := by
  refine ⟨?_, clampPersons_bounds, ?_, ?_, ?_⟩
  · intro gw form lang store r hr
    simp only [reservation_post] at hr
    split at hr
    · exact .inl hr
    · split at hr
      · exact .inl hr
      · exact .inl hr
      · rcases List.mem_append.1 hr with h | h
        · exact .inl h
        · rcases List.mem_singleton.1 h with rfl
          exact .inr ⟨(clampPersons_bounds _).1, (clampPersons_bounds _).2, rfl⟩
  · intro raw h
    simp only [clampPersons]
    rw [h]
  · intro raw n h hn
    simp only [clampPersons]
    rw [h]
    simp only [if_pos hn]
  · intro raw n h hn
    simp only [clampPersons]
    rw [h]
    have hlt : ¬ n < 1 := by omega
    have hgt : n > 6 := hn
    simp only [if_neg hlt, if_pos hgt]

/-- Witness for C10: an oversized submitted party of 9 is stored as 6. -/
theorem claim_c10_persons_clamped_witness :
    (⟨"Jean Dupont", "jean@example.com", "+33", "France", "2026-01-01", 6,
      "zipaquira", "hello", "fr", "CAP123"⟩ : ResRecord) ∈
      ([] : List ResRecord) ∨
    (1 ≤ (⟨"Jean Dupont", "jean@example.com", "+33", "France", "2026-01-01", 6,
      "zipaquira", "hello", "fr", "CAP123"⟩ : ResRecord).persons ∧
     (⟨"Jean Dupont", "jean@example.com", "+33", "France", "2026-01-01", 6,
      "zipaquira", "hello", "fr", "CAP123"⟩ : ResRecord).persons ≤ 6 ∧
     (⟨"Jean Dupont", "jean@example.com", "+33", "France", "2026-01-01", 6,
      "zipaquira", "hello", "fr", "CAP123"⟩ : ResRecord).persons =
       clampPersons ({ formCap123 with persons := "9" } : ResForm).persons) :=
  claim_c10_persons_clamped.1 gwCompleted { formCap123 with persons := "9" } "fr" []
    ⟨"Jean Dupont", "jean@example.com", "+33", "France", "2026-01-01", 6,
      "zipaquira", "hello", "fr", "CAP123"⟩ (by decide)

/-! ## Gateway evaluation lemmas -/

theorem paypal_access_token_trace (gw : Gateway) :
    (paypal_access_token gw).2 = [.tokenReq] := by
  unfold paypal_access_token
  split
  · rfl
  · split
    · rfl
    · split <;> rfl

theorem verify_of_token_error {gw : Gateway} {cid : String} {e : PyExn}
    {tr : List GwReq} (hcid : ¬ cid = "")
    (hT : paypal_access_token gw = (.error e, tr)) :
    verify_paypal_capture gw cid = (.error e, tr) := by
  simp only [verify_paypal_capture, if_neg hcid, hT]

theorem verify_of_exn {gw : Gateway} {cid t : String} {tr : List GwReq}
    (hcid : ¬ cid = "") (hT : paypal_access_token gw = (.ok t, tr))
    (hC : gw.getCapture cid = .exn) :
    verify_paypal_capture gw cid =
      (.error .requestException, tr ++ [.getCaptureReq cid]) := by
  simp only [verify_paypal_capture, if_neg hcid, hT, hC]

theorem verify_of_status {gw : Gateway} {cid t : String} {tr : List GwReq}
    {r : CaptureResp} (hcid : ¬ cid = "")
    (hT : paypal_access_token gw = (.ok t, tr)) (hC : gw.getCapture cid = .resp r)
    (hs : 400 ≤ r.status) :
    verify_paypal_capture gw cid = (.ok false, tr ++ [.getCaptureReq cid]) := by
  simp only [verify_paypal_capture, if_neg hcid, hT, hC, if_pos hs]

theorem verify_of_invalid {gw : Gateway} {cid t : String} {tr : List GwReq}
    {r : CaptureResp} (hcid : ¬ cid = "")
    (hT : paypal_access_token gw = (.ok t, tr)) (hC : gw.getCapture cid = .resp r)
    (hs : ¬ 400 ≤ r.status) (hB : r.body = .invalid) :
    verify_paypal_capture gw cid =
      (.error .jsonError, tr ++ [.getCaptureReq cid]) := by
  simp only [verify_paypal_capture, if_neg hcid, hT, hC, if_neg hs, hB]

theorem verify_of_obj {gw : Gateway} {cid t : String} {tr : List GwReq}
    {r : CaptureResp} {st : Option String} (hcid : ¬ cid = "")
    (hT : paypal_access_token gw = (.ok t, tr)) (hC : gw.getCapture cid = .resp r)
    (hs : ¬ 400 ≤ r.status) (hB : r.body = .obj st) :
    verify_paypal_capture gw cid =
      (.ok (st == some "COMPLETED"), tr ++ [.getCaptureReq cid]) := by
  simp only [verify_paypal_capture, if_neg hcid, hT, hC, if_neg hs, hB]

/-- A gateway whose token request succeeds but whose reads raise a
transport exception. -/
def gwNetFail : Gateway :=
  ⟨.resp ⟨200, .obj (some "T")⟩, fun _ => .exn,
   .resp ⟨201, .obj (some "ORDER9")⟩, fun _ => .exn⟩

/-- A gateway that returns 503 with an unparseable body on everything
except the token request. -/
def gw503 : Gateway :=
  ⟨.resp ⟨200, .obj (some "T")⟩, fun _ => .resp ⟨503, .invalid⟩,
   .resp ⟨503, .invalid⟩, fun _ => .resp ⟨503, .invalid⟩⟩

/-- The configuration settling in USD. -/
def cfgUSD : PayCfg := ⟨"USD", ⟨3800, 0⟩⟩

/-! ## Claim C4 -/

/-- Counterexample to C4 as stated: a transport failure on the capture
GET propagates a requests exception out of verify_paypal_capture (the
function has no try/except), instead of returning false. -/
theorem claim_c4_counterexample :
    (verify_paypal_capture gwNetFail "CAPX").1 = .error .requestException ∧
    ¬ (verify_paypal_capture gwNetFail "CAPX").1 = .ok false := by decide

/-- C4 amended: verify_paypal_capture returns true iff the capture id is
non-empty, the token fetch succeeds and the capture GET returns a
success status whose body reports COMPLETED; it returns false when the
capture GET answers with an HTTP error status (after a successful token
fetch); but a transport exception on the capture GET, or any failure of
the token fetch, propagates as an exception instead of returning
false. -/
theorem claim_c4_amended_verify_gate :
    (∀ (gw : Gateway) (cid : String),
      (verify_paypal_capture gw cid).1 = .ok true ↔
        (cid ≠ "" ∧ (∃ t, (paypal_access_token gw).1 = .ok t) ∧
          ∃ r, gw.getCapture cid = .resp r ∧ r.status < 400 ∧
            r.body = .obj (some "COMPLETED"))) ∧
    (∀ (gw : Gateway) (cid t : String) (r : CaptureResp),
      cid ≠ "" → (paypal_access_token gw).1 = .ok t →
      gw.getCapture cid = .resp r → 400 ≤ r.status →
      (verify_paypal_capture gw cid).1 = .ok false) ∧
    (∀ (gw : Gateway) (cid t : String), cid ≠ "" →
      (paypal_access_token gw).1 = .ok t → gw.getCapture cid = .exn →
      (verify_paypal_capture gw cid).1 = .error .requestException) ∧
    (∀ (gw : Gateway) (cid : String) (e : PyExn), cid ≠ "" →
      (paypal_access_token gw).1 = .error e →
      (verify_paypal_capture gw cid).1 = .error e) := by
  refine ⟨?_, ?_, ?_, ?_⟩
  · intro gw cid
    by_cases hcid : cid = ""
    · subst hcid
      rw [show verify_paypal_capture gw "" = (.ok false, []) from rfl]
      simp
    · rcases hP : paypal_access_token gw with ⟨tres, ttr⟩
      cases tres with
      | error e =>
        rw [verify_of_token_error hcid hP]
        constructor
        · intro h
          exact absurd h (by simp)
        · rintro ⟨_, ⟨t, ht⟩, _⟩
          exact absurd ht (by simp)
      | ok t =>
        cases hC : gw.getCapture cid with
        | exn =>
          rw [verify_of_exn hcid hP hC]
          constructor
          · intro h
            exact absurd h (by simp)
          · rintro ⟨_, _, r, hr, _, _⟩
            exact absurd hr (by simp)
        | resp r =>
          by_cases hs : 400 ≤ r.status
          · rw [verify_of_status hcid hP hC hs]
            constructor
            · intro h
              exact absurd h (by simp)
            · rintro ⟨_, _, r', hr', hs', _⟩
              injection hr' with h'
              subst h'
              omega
          · cases hB : r.body with
            | invalid =>
              rw [verify_of_invalid hcid hP hC hs hB]
              constructor
              · intro h
                exact absurd h (by simp)
              · rintro ⟨_, _, r', hr', _, hb'⟩
                injection hr' with h'
                subst h'
                rw [hB] at hb'
                exact absurd hb' (by simp)
            | obj st =>
              rw [verify_of_obj hcid hP hC hs hB]
              constructor
              · intro h
                replace h : Except.ok (st == some "COMPLETED") =
                    (Except.ok true : Except PyExn Bool) := h
                injection h with h'
                have hst : st = some "COMPLETED" := by
                  rwa [beq_iff_eq] at h'
                exact ⟨hcid, ⟨t, rfl⟩, r, rfl, by omega, by rw [hB, hst]⟩
              · rintro ⟨_, _, r', hr', _, hb'⟩
                injection hr' with h'
                subst h'
                rw [hB] at hb'
                injection hb' with h''
                rw [h'']
                rfl
  · intro gw cid t r hcid hT hC hs
    rcases hP : paypal_access_token gw with ⟨tres, ttr⟩
    have htres : tres = Except.ok t := by rw [hP] at hT; exact hT
    subst htres
    rw [verify_of_status hcid hP hC hs]
  · intro gw cid t hcid hT hC
    rcases hP : paypal_access_token gw with ⟨tres, ttr⟩
    have htres : tres = Except.ok t := by rw [hP] at hT; exact hT
    subst htres
    rw [verify_of_exn hcid hP hC]
  · intro gw cid e hcid hT
    rcases hP : paypal_access_token gw with ⟨tres, ttr⟩
    have htres : tres = Except.error e := by rw [hP] at hT; exact hT
    subst htres
    rw [verify_of_token_error hcid hP]

/-- Witness for C4 amended: a 503 answer on the capture GET yields
false. -/
theorem claim_c4_amended_verify_gate_witness :
    (verify_paypal_capture gw503 "CAPX").1 = .ok false :=
  claim_c4_amended_verify_gate.2.1 gw503 "CAPX" "T" ⟨503, .invalid⟩
    (by decide) (by decide) (by decide) (by decide)

/-! ## Claim C7 -/

/-- Counterexample to C7 as stated: on a persistent 503 the capture
verification issues exactly one capture-lookup request — no retry ever
happens (the code has no retry loop and no retry configuration) — and
likewise order creation answers the 503 after its single request.  The
clean failure (false, 400) is real; the claimed retries are not. -/
theorem claim_c7_counterexample :
    (verify_paypal_capture gw503 "CAP1").2.countP GwReq.isCaptureLookup = 1 ∧
    (verify_paypal_capture gw503 "CAP1").1 = .ok false ∧
    (create_paypal_order cfgUSD gw503 (some ⟨some "monserrate", .vint 2⟩)).2.countP
      GwReq.isCreate = 1 ∧
    (create_paypal_order cfgUSD gw503 (some ⟨some "monserrate", .vint 2⟩)).1 =
      .gatewayError400 := by decide

/-- C7 amended: the transport layer never retries anything.  Every call
to verify_paypal_capture issues at most one capture-lookup request,
every call to the order-read route issues at most one order-lookup
request, and every call to create_paypal_order issues at most one
order-creation request; on a 503 capture response (after a successful
token fetch) verify_paypal_capture fails cleanly by returning false. -/
theorem claim_c7_amended_no_transport_retries :
    (∀ (gw : Gateway) (cid : String),
      (verify_paypal_capture gw cid).2.countP GwReq.isCaptureLookup ≤ 1) ∧
    (∀ (gw : Gateway) (oid : String),
      (paypal_order gw oid).2.countP GwReq.isOrderLookup ≤ 1) ∧
    (∀ (cfg : PayCfg) (gw : Gateway) (d : Option OrderReq),
      (create_paypal_order cfg gw d).2.countP GwReq.isCreate ≤ 1) ∧
    (∀ (gw : Gateway) (cid t : String) (r : CaptureResp), cid ≠ "" →
      (paypal_access_token gw).1 = .ok t → gw.getCapture cid = .resp r →
      r.status = 503 → (verify_paypal_capture gw cid).1 = .ok false) := by
  refine ⟨?_, ?_, ?_, ?_⟩
  · intro gw cid
    by_cases hcid : cid = ""
    · subst hcid
      rw [show verify_paypal_capture gw "" = (.ok false, []) from rfl]
      simp
    · rcases hP : paypal_access_token gw with ⟨tres, ttr⟩
      have httr : ttr = [.tokenReq] := by
        have h := paypal_access_token_trace gw
        rw [hP] at h
        exact h
      subst httr
      cases tres with
      | error e =>
        rw [verify_of_token_error hcid hP]
        simp [GwReq.isCaptureLookup]
      | ok t =>
        cases hC : gw.getCapture cid with
        | exn =>
          rw [verify_of_exn hcid hP hC]
          simp [GwReq.isCaptureLookup]
        | resp r =>
          by_cases hs : 400 ≤ r.status
          · rw [verify_of_status hcid hP hC hs]
            simp [GwReq.isCaptureLookup]
          · cases hB : r.body with
            | invalid =>
              rw [verify_of_invalid hcid hP hC hs hB]
              simp [GwReq.isCaptureLookup]
            | obj st =>
              rw [verify_of_obj hcid hP hC hs hB]
              simp [GwReq.isCaptureLookup]
  · intro gw oid
    unfold paypal_order
    split
    case _ e tr heq =>
      have htr : tr = [.tokenReq] := by
        have h := paypal_access_token_trace gw
        rw [heq] at h
        exact h
      subst htr
      simp [GwReq.isOrderLookup]
    case _ t tr heq =>
      have htr : tr = [.tokenReq] := by
        have h := paypal_access_token_trace gw
        rw [heq] at h
        exact h
      subst htr
      split
      · simp [GwReq.isOrderLookup]
      · split <;> simp [GwReq.isOrderLookup]
  · intro cfg gw d
    simp only [create_paypal_order]
    split
    · simp
    · split
      case _ e tr heq =>
        have htr : tr = [.tokenReq] := by
          have h := paypal_access_token_trace gw
          rw [heq] at h
          exact h
        subst htr
        simp [GwReq.isCreate]
      case _ t tr heq =>
        have htr : tr = [.tokenReq] := by
          have h := paypal_access_token_trace gw
          rw [heq] at h
          exact h
        subst htr
        split
        · simp [GwReq.isCreate]
        · split
          · simp [GwReq.isCreate]
          · split <;> simp [GwReq.isCreate]
  · intro gw cid t r hcid hT hC hs
    rcases hP : paypal_access_token gw with ⟨tres, ttr⟩
    have htres : tres = Except.ok t := by rw [hP] at hT; exact hT
    subst htres
    rw [verify_of_status hcid hP hC (by omega)]

/-- Witness for C7 amended: the persistent-503 gateway. -/
theorem claim_c7_amended_no_transport_retries_witness :
    (verify_paypal_capture gw503 "CAP1").1 = .ok false :=
  claim_c7_amended_no_transport_retries.2.2.2 gw503 "CAP1" "T" ⟨503, .invalid⟩
    (by decide) (by decide) (by decide) (by decide)

/-! ## Claim C3 -/

/-- Counterexample to C3 as stated: POST /create-paypal-order with
monserrate and a party of 7 does not reject — compute_price clamps the
size to 6 — and the gateway order-creation call is issued, returning the
created order id. -/
theorem claim_c3_counterexample :
    (create_paypal_order cfgUSD gwCompleted (some ⟨some "monserrate", .vint 7⟩)).1 =
      .ok200 "ORDER9" ∧
    (create_paypal_order cfgUSD gwCompleted
      (some ⟨some "monserrate", .vint 7⟩)).2.countP GwReq.isCreate = 1 := by decide

/-- C3 amended: order creation clamps an oversized party to
max_group_size 6 instead of rejecting it (the request proceeds exactly
as a party of 6 would); rejection before any gateway call happens only
when compute_price raises, in particular for a tour absent from the
price table. -/
theorem claim_c3_amended_clamp_not_reject :
    (∀ (cfg : PayCfg) (tour : String) (v : PyVal) (n : ℤ),
      pyToInt v = some n → 6 < n →
      compute_price cfg tour v = compute_price cfg tour (.vint 6)) ∧
    (∀ (cfg : PayCfg) (gw : Gateway) (d : OrderReq) (e : PriceErr),
      compute_price cfg (pyStrip (d.tour.getD ""))
        (if pyTruthy d.persons then d.persons else .vint 1) = .error e →
      create_paypal_order cfg gw (some d) = (.valueError400 e, [])) ∧
    (∀ (cfg : PayCfg) (gw : Gateway) (d : OrderReq),
      PRICES_USD_PAYPAL.lookup (normSlug (pyStrip (d.tour.getD ""))) = none →
      create_paypal_order cfg gw (some d) = (.valueError400 .tourNotPriced, [])) := by
  have hval : ∀ (cfg : PayCfg) (gw : Gateway) (d : OrderReq) (e : PriceErr),
      compute_price cfg (pyStrip (d.tour.getD ""))
        (if pyTruthy d.persons then d.persons else .vint 1) = .error e →
      create_paypal_order cfg gw (some d) = (.valueError400 e, []) := by
    intro cfg gw d e h
    simp only [create_paypal_order, Option.getD_some]
    rw [h]
  refine ⟨?_, hval, ?_⟩
  · intro cfg tour v n hv hn
    have h6 : max 1 (min ((pyToInt v).getD 1) 6) = 6 := by
      rw [hv]
      simp only [Option.getD_some]
      omega
    have h6' : max 1 (min ((pyToInt (PyVal.vint 6)).getD 1) 6) = 6 := by decide
    simp only [compute_price, h6, h6']
  · intro cfg gw d hlk
    refine hval cfg gw d .tourNotPriced ?_
    unfold compute_price
    rw [hlk]

/-- Witness for C3 amended: a party of 7 on monserrate prices exactly as
a party of 6. -/
theorem claim_c3_amended_clamp_not_reject_witness :
    compute_price cfgUSD "monserrate" (.vint 7) =
      compute_price cfgUSD "monserrate" (.vint 6) :=
  claim_c3_amended_clamp_not_reject.1 cfgUSD "monserrate" (.vint 7) 7
    (by decide) (by decide)

end Ohlala
